import Mathlib

/-!
# Verification of djangosaml2 views (views.py)

A shallow embedding of the five HTTP flow handlers of
`djangosaml2/views.py` — `login`, `assertion_consumer_service`, `logout`,
`logout_service` and `metadata` — together with proofs of the behavioural
properties claimed for them.

The external collaborators (the pysaml2 protocol library, the Django
authentication framework and the shelve-backed protocol state store) are
black boxes: their per-call results are supplied through an oracle
structure `Saml2Lib`, and the side effects the handlers perform on them
(opening / syncing / closing the state store, logging a user in or out,
building an AuthnRequest or a global LogoutRequest) are recorded in an
ordered effect trace.  Each handler is a function from the oracle, the
process-wide settings and the HTTP request to a `HandlerOut` holding the
HTTP-level result, the session after the call, the effect trace and the
value held by the process-wide settings after the call.
-/

namespace Djangosaml2

/-- The `settings.SAML_CONFIG` blob, abstracted to a string association
list (its precise shape never matters to the handlers, which pass it
whole to the library). -/
abbrev Config := List (String × String)

/-- `copy.deepcopy`: produces an independent copy of the value.  In the
value-semantics embedding the copy is the same value; what matters is
that in `load_conf` the library mutates the copy, not the shared
settings. -/
def deepcopy (c : Config) : Config := c

/-- The Django session dictionary, restricted to the keys the handlers
touch: the logged-in local user (written by `auth.login`, cleared by
`auth.logout` / `django_logout`), the `SAML_SUBJECT_ID` key, and the
contents of the outstanding-queries cache stored in the session. -/
structure Session where
  authUser : Option String
  samlSubjectId : Option String
  oq : List (String × String)
  deriving DecidableEq, Repr

/-- `auth.logout` / `django_logout` flush the whole session. -/
def Session.flush (_s : Session) : Session :=
  { authUser := none, samlSubjectId := none, oq := [] }

/-- An incoming Django HTTP request: query parameters, form parameters
and the browser session. -/
structure HttpRequest where
  getParams : List (String × String)
  postParams : List (String × String)
  session : Session
  deriving DecidableEq, Repr

/-- Python exceptions the handlers can raise. -/
inductive PyExn where
  | keyError (key : String)
  | assertionError
  | typeError
  | indexError
  | duplicateRequestId
  deriving DecidableEq, Repr

/-- What a handler hands back to the framework. -/
inductive HandlerResult where
  /-- `HttpResponse(body)` -/
  | response (body : String)
  /-- `HttpResponse(content=body, content_type=ct)` -/
  | responseCT (body contentType : String)
  /-- `HttpResponseRedirect(url)` -/
  | redirect (url : String)
  /-- `render_to_response` of the WAYF discovery template -/
  | render (template : String) (idps : List String) (cameFrom : String)
  /-- `return django_logout(request)` (framework logout view) -/
  | djangoLogout
  /-- the `login_required` decorator redirecting to the login page -/
  | redirectToLogin
  /-- `raise Http404(msg)` -/
  | http404 (msg : String)
  /-- an uncaught Python exception escaping the handler -/
  | exn (e : PyExn)
  deriving DecidableEq, Repr

/-- Side effects on the external collaborators, in the order the handler
performs them. -/
inductive Effect where
  /-- `shelve.open` of the protocol state store -/
  | stateOpen
  /-- `state.sync()` -/
  | stateSync
  /-- `state.close()` (never performed by this code) -/
  | stateClose
  /-- `client.authenticate` built and returned an AuthnRequest -/
  | authnRequestBuilt
  /-- `auth.login(request, user)` -/
  | authLogin
  /-- `auth.logout(request)` (directly or via `django_logout`) -/
  | authLogout
  /-- `client.global_logout` built a LogoutRequest -/
  | globalLogoutCall
  deriving DecidableEq, Repr

/-- The process-wide Django settings the handlers read. -/
structure Settings where
  SAML_CONFIG : Config
  SAML_METADATA_ID : Option String
  SAML_METADATA_NAME : Option String
  SAML_METADATA_SIGN : Option Bool
  deriving DecidableEq, Repr

/-- The pysaml2 `SPConfig` object, restricted to the queries the
handlers make of it. -/
structure SPConfig where
  is_wayf_needed : Bool
  available_idps : List String
  sso_service : String → String
  entityid : String
  valid_for : Option Nat
  xmlsec_binary : String
  key_file : String

/-- `response.session_info()`: the identity data handed to the Django
authentication backend. -/
structure SessionInfo where
  name_id : String
  extra : List (String × String)
  deriving DecidableEq, Repr

/-- A verified SAML response as returned by `client.response` when
verification succeeds. -/
structure SamlResp where
  resp_session_id : String
  resp_session_info : SessionInfo
  deriving DecidableEq, Repr

/-- The black-box collaborators: each field gives the result of one
external call the handlers make.  `spconfig_load` also returns the
(possibly mutated) config dictionary it was handed, since pysaml2
`SPConfig.load` mutates its argument in place — which is why `load_conf`
hands it a deep copy. -/
structure Saml2Lib where
  spconfig_load : Config → SPConfig × Config
  client_authenticate : SPConfig → Option String → String → String × List String
  client_response : SPConfig → String → String → List (String × String) → Option SamlResp
  auth_backend : SessionInfo → Option String
  client_logout_response : SPConfig → String → Option (String × String)
  client_logout_request : SPConfig → List (String × String) → String → Option (List (String × String)) × Bool
  client_global_logout : SPConfig → String → String × Nat × List (String × String) × String
  entity_desc : SPConfig → Nat → String
  entities_desc : List String → Nat → String → String → Bool → String × String → String
  security_ctx : String → String → String × String

/-- What a handler produces: the HTTP-level outcome, the session after
the call, the ordered effect trace, and the value the process-wide
settings hold after the call. -/
structure HandlerOut where
  result : HandlerResult
  session : Session
  effects : List Effect
  settingsAfter : Settings
  deriving Repr

/-- `_load_conf`: build an `SPConfig` and load it from a deep copy of
`settings.SAML_CONFIG`.  The in-place mutation `SPConfig.load` performs
lands on the copy (discarded second component), so the shared settings
value after the call is the one before it. -/
def load_conf (lib : Saml2Lib) (settings : Settings) : SPConfig × Settings :=
  let copied := deepcopy settings.SAML_CONFIG
  let loaded := lib.spconfig_load copied
  (loaded.1, settings)

/-- Modelled from the spec: `OutstandingQueriesCache.set`
(`djangosaml2/cache.py` is not among the provided sources).  Spec 4.2:
"record(requestId, returnLocation): inserts; fails with
DuplicateRequestId if already present". -/
def oqRecord (oq : List (String × String)) (rid loc : String) :
    Except PyExn (List (String × String)) :=
  if (oq.lookup rid).isSome then .error .duplicateRequestId
  else .ok ((rid, loc) :: oq)

/-- Modelled from the spec: `OutstandingQueriesCache.delete`
(`djangosaml2/cache.py` is not among the provided sources).  Spec 4.2:
"forget(requestId): idempotent removal". -/
def oqForget (oq : List (String × String)) (rid : String) :
    List (String × String) :=
  oq.filter (fun p => p.1 ≠ rid)

/-- `dict(pairs)[key]` in Python keeps the value of the LAST occurrence
of a repeated key, so look the key up in the reversed pair list. -/
def dictGet (l : List (String × String)) (k : String) : Option String :=
  l.reverse.lookup k

/-- `login(request)`: the SAML AuthnRequest initiator (views.py 49-80). -/
def login (lib : Saml2Lib) (settings : Settings) (req : HttpRequest) :
    HandlerOut :=
  let came_from := (req.getParams.lookup "next").getD "/"
  let selected_idp := req.getParams.lookup "idp"
  let loaded := load_conf lib settings
  let conf := loaded.1
  if selected_idp.isNone && conf.is_wayf_needed then
    { result := .render "djangosaml2/wayf.html" conf.available_idps came_from
      session := req.session
      effects := []
      settingsAfter := loaded.2 }
  else
    let resolved_idp := selected_idp.map conf.sso_service
    let authn := lib.client_authenticate conf resolved_idp came_from
    let session_id := authn.1
    match authn.2 with
    | [loc_key, location] =>
      if loc_key = "Location" then
        match oqRecord req.session.oq session_id came_from with
        | .ok oq2 =>
          { result := .redirect location
            session := { req.session with oq := oq2 }
            effects := [.authnRequestBuilt]
            settingsAfter := loaded.2 }
        | .error e =>
          { result := .exn e
            session := req.session
            effects := [.authnRequestBuilt]
            settingsAfter := loaded.2 }
      else
        { result := .exn .assertionError
          session := req.session
          effects := [.authnRequestBuilt]
          settingsAfter := loaded.2 }
    | _ =>
      { result := .exn .assertionError
        session := req.session
        effects := [.authnRequestBuilt]
        settingsAfter := loaded.2 }

/-- `assertion_consumer_service(request)`: the AuthnResponse endpoint
(views.py 83-119). -/
def assertion_consumer_service (lib : Saml2Lib) (settings : Settings)
    (req : HttpRequest) : HandlerOut :=
  let loaded := load_conf lib settings
  let conf := loaded.1
  match req.postParams.lookup "SAMLResponse" with
  | none =>
    { result := .exn (.keyError "SAMLResponse")
      session := req.session
      effects := []
      settingsAfter := loaded.2 }
  | some saml_response =>
    let outstanding_queries := req.session.oq
    match lib.client_response conf saml_response conf.entityid outstanding_queries with
    | none =>
      { result := .response "SAML response has errors. Please check the logs"
        session := req.session
        effects := []
        settingsAfter := loaded.2 }
    | some response =>
      let session1 := { req.session with
                        oq := oqForget req.session.oq response.resp_session_id }
      let session_info := response.resp_session_info
      match lib.auth_backend session_info with
      | none =>
        { result := .response "user not valid"
          session := session1
          effects := []
          settingsAfter := loaded.2 }
      | some user =>
        let session2 := { session1 with
                          authUser := some user
                          samlSubjectId := some session_info.name_id }
        let relay_state := (req.postParams.lookup "RelayState").getD "/"
        { result := .redirect relay_state
          session := session2
          effects := [.authLogin]
          settingsAfter := loaded.2 }

/-- `logout(request)`: the SP-initiated LogoutRequest initiator
(views.py 122-136), including the `login_required` decorator. -/
def logout (lib : Saml2Lib) (settings : Settings) (req : HttpRequest) :
    HandlerOut :=
  if req.session.authUser.isNone then
    { result := .redirectToLogin
      session := req.session
      effects := []
      settingsAfter := settings }
  else
    let loaded := load_conf lib settings
    match req.session.samlSubjectId with
    | none =>
      { result := .exn (.keyError "SAML_SUBJECT_ID")
        session := req.session
        effects := [.stateOpen]
        settingsAfter := loaded.2 }
    | some subject_id =>
      let gl := lib.client_global_logout loaded.1 subject_id
      let head := gl.2.2.1
      match dictGet head "Location" with
      | some loc =>
        { result := .redirect loc
          session := req.session
          effects := [.stateOpen, .globalLogoutCall, .stateSync]
          settingsAfter := loaded.2 }
      | none =>
        { result := .exn (.keyError "Location")
          session := req.session
          effects := [.stateOpen, .globalLogoutCall, .stateSync]
          settingsAfter := loaded.2 }

/-- `logout_service(request)`: both legs of single logout
(views.py 139-177).  Note the read of `request.session['SAML_SUBJECT_ID']`
at line 153, before the dispatch on the query parameters. -/
def logout_service (lib : Saml2Lib) (settings : Settings)
    (req : HttpRequest) : HandlerOut :=
  let loaded := load_conf lib settings
  let conf := loaded.1
  match req.session.samlSubjectId with
  | none =>
    { result := .exn (.keyError "SAML_SUBJECT_ID")
      session := req.session
      effects := [.stateOpen]
      settingsAfter := loaded.2 }
  | some subject_id =>
    match req.getParams.lookup "SAMLResponse" with
    | some saml_resp =>
      match lib.client_logout_response conf saml_resp with
      | some pair =>
        if pair.2 = "200 Ok" then
          { result := .djangoLogout
            session := req.session.flush
            effects := [.stateOpen, .authLogout]
            settingsAfter := loaded.2 }
        else
          { result := .response "Error during logout"
            session := req.session
            effects := [.stateOpen]
            settingsAfter := loaded.2 }
      | none =>
        { result := .response "Error during logout"
          session := req.session
          effects := [.stateOpen]
          settingsAfter := loaded.2 }
    | none =>
      match req.getParams.lookup "SAMLRequest" with
      | some _ =>
        let lr := lib.client_logout_request conf req.getParams subject_id
        match lr.2, lr.1 with
        | true, some ((k, url) :: _) =>
          if k = "Location" then
            { result := .redirect url
              session := req.session.flush
              effects := [.stateOpen, .authLogout]
              settingsAfter := loaded.2 }
          else
            { result := .exn .assertionError
              session := req.session.flush
              effects := [.stateOpen, .authLogout]
              settingsAfter := loaded.2 }
        | true, some [] =>
          { result := .exn .indexError
            session := req.session.flush
            effects := [.stateOpen, .authLogout]
            settingsAfter := loaded.2 }
        | true, none =>
          { result := .exn .typeError
            session := req.session.flush
            effects := [.stateOpen, .authLogout]
            settingsAfter := loaded.2 }
        | false, some ((k, url) :: _) =>
          if k = "Location" then
            { result := .redirect url
              session := req.session
              effects := [.stateOpen]
              settingsAfter := loaded.2 }
          else
            { result := .exn .assertionError
              session := req.session
              effects := [.stateOpen]
              settingsAfter := loaded.2 }
        | false, some [] =>
          { result := .exn .indexError
            session := req.session
            effects := [.stateOpen]
            settingsAfter := loaded.2 }
        | false, none =>
          { result := .response "Error during logout"
            session := req.session
            effects := [.stateOpen]
            settingsAfter := loaded.2 }
      | none =>
        { result := .http404 "No SAMLResponse or SAMLRequest parameter found"
          session := req.session
          effects := [.stateOpen]
          settingsAfter := loaded.2 }

/-- `metadata(request)`: the SP metadata endpoint (views.py 180-194). -/
def metadata (lib : Saml2Lib) (settings : Settings) (req : HttpRequest) :
    HandlerOut :=
  let ed_id := settings.SAML_METADATA_ID.getD ""
  let name := settings.SAML_METADATA_NAME.getD ""
  let sign := settings.SAML_METADATA_SIGN.getD false
  let loaded := load_conf lib settings
  let conf := loaded.1
  let valid_for := conf.valid_for.getD 24
  let output := lib.entities_desc [lib.entity_desc conf valid_for] valid_for
    name ed_id sign (lib.security_ctx conf.xmlsec_binary conf.key_file)
  { result := .responseCT output "text/xml; charset=utf8"
    session := req.session
    effects := []
    settingsAfter := loaded.2 }

/-! ## Concrete fixtures

A sample oracle and sample requests, used to instantiate the theorems
below on concrete inputs. -/

/-- A sample loaded SP configuration (single IdP, no WAYF needed). -/
def confA : SPConfig :=
  { is_wayf_needed := false
    available_idps := ["https://idp.example/metadata"]
    sso_service := fun s => s ++ "/sso"
    entityid := "https://sp.example/metadata"
    valid_for := none
    xmlsec_binary := "xmlsec1"
    key_file := "key.pem" }

/-- The sample configuration with WAYF discovery required. -/
def confWayf : SPConfig :=
  { confA with is_wayf_needed := true }

/-- A sample oracle: verification of authentication responses fails and
logout calls succeed with a redirect target. -/
def libA : Saml2Lib :=
  { spconfig_load := fun c => (confA, c)
    client_authenticate := fun _ _ _ =>
      ("id-17", ["Location", "https://idp.example/sso?req=1"])
    client_response := fun _ _ _ _ => none
    auth_backend := fun _ => none
    client_logout_response := fun _ _ => some ("resp", "200 Ok")
    client_logout_request := fun _ _ _ =>
      (some [("Location", "https://idp.example/done")], true)
    client_global_logout := fun _ _ =>
      ("sid-9", 200, [("Location", "https://idp.example/slo")], "")
    entity_desc := fun _ n => "ed-" ++ toString n
    entities_desc := fun eds n nm i sg sc =>
      String.join eds ++ "|" ++ toString n ++ "|" ++ nm ++ "|" ++ i ++ "|"
        ++ (if sg then "signed" else "plain") ++ "|" ++ sc.1 ++ "|" ++ sc.2
    security_ctx := fun a b => (a, b) }

/-- The sample oracle with a WAYF-needing configuration. -/
def libWayf : Saml2Lib :=
  { libA with spconfig_load := fun c => (confWayf, c) }

/-- A verified response fixture. -/
def respA : SamlResp :=
  { resp_session_id := "id-17"
    resp_session_info := { name_id := "name-1", extra := [] } }

/-- The sample oracle where verification succeeds but the Django
backend resolves no local user. -/
def libVerified : Saml2Lib :=
  { libA with client_response := fun _ _ _ _ => some respA }

/-- The sample oracle where verification succeeds and the backend
resolves the local user `alice`. -/
def libResolved : Saml2Lib :=
  { libVerified with auth_backend := fun _ => some "alice" }

/-- Sample settings. -/
def settingsA : Settings :=
  { SAML_CONFIG := [("entityid", "https://sp.example/metadata")]
    SAML_METADATA_ID := none
    SAML_METADATA_NAME := none
    SAML_METADATA_SIGN := none }

/-- An anonymous browser session. -/
def sessAnon : Session := { authUser := none, samlSubjectId := none, oq := [] }

/-- A session with a logged-in user and a stored SAML subject id. -/
def sessAuth : Session :=
  { authUser := some "alice", samlSubjectId := some "subj-1", oq := [] }

/-- A session with a logged-in user but no stored SAML subject id. -/
def sessNoSubj : Session :=
  { authUser := some "alice", samlSubjectId := none, oq := [] }

/-- A bare GET request with an anonymous session. -/
def reqGet : HttpRequest := { getParams := [], postParams := [], session := sessAnon }

/-- A POST to the assertion consumer carrying a SAMLResponse blob. -/
def reqAcs : HttpRequest :=
  { getParams := [], postParams := [("SAMLResponse", "BLOB")], session := sessAnon }

/-- A logout-service GET carrying a SAMLRequest, session authenticated
with a subject id. -/
def reqLSReq : HttpRequest :=
  { getParams := [("SAMLRequest", "xyz")], postParams := [], session := sessAuth }

/-- A logout-service GET carrying a SAMLRequest, session lacking the
SAML subject id. -/
def reqLSReqNoSubj : HttpRequest :=
  { getParams := [("SAMLRequest", "xyz")], postParams := [], session := sessNoSubj }

/-- A logout-service GET with neither protocol parameter, session
lacking the SAML subject id. -/
def reqLSNone : HttpRequest :=
  { getParams := [], postParams := [], session := sessNoSubj }

/-- A logout-service GET with neither protocol parameter, session
authenticated with a subject id. -/
def reqLS404 : HttpRequest :=
  { getParams := [], postParams := [], session := sessAuth }

/-- A logout-initiate request from an authenticated session that has a
subject id. -/
def reqLogoutAuth : HttpRequest :=
  { getParams := [], postParams := [], session := sessAuth }

/-- A logout-initiate request from an authenticated session lacking the
subject id. -/
def reqLogoutNoSubj : HttpRequest :=
  { getParams := [], postParams := [], session := sessNoSubj }

/-! ## Claim theorems -/

/-- Claim C8: every protocol operation (login, assertion-consumer,
logout-initiate, logout-service, metadata) loads its SP configuration
from a deep copy of the process-wide configuration source, so for every
operation and every input the shared process-wide settings value is
unchanged after the operation completes. -/
theorem handlers_preserve_settings (lib : Saml2Lib) (settings : Settings)
    (req : HttpRequest) :
    (login lib settings req).settingsAfter = settings
    ∧ (assertion_consumer_service lib settings req).settingsAfter = settings
    ∧ (logout lib settings req).settingsAfter = settings
    ∧ (logout_service lib settings req).settingsAfter = settings
    ∧ (metadata lib settings req).settingsAfter = settings := by
  refine ⟨?_, ?_, ?_, ?_, ?_⟩
  all_goals simp only [login, assertion_consumer_service, logout,
    logout_service, metadata, load_conf]
  all_goals repeat' split
  all_goals rfl

/-- Claim C9: metadata generation is a pure function of configuration —
the handler consults no session or protocol state, so two invocations
under identical configuration yield identical output, returned with
content type `text/xml; charset=utf8`, and the validity window defaults
to 24 when the configuration supplies none. -/
theorem metadata_pure_of_config (lib : Saml2Lib) (settings : Settings)
    (req req2 : HttpRequest) :
    (metadata lib settings req).result = (metadata lib settings req2).result
    ∧ (metadata lib settings req).session = req.session
    ∧ (metadata lib settings req).effects = []
    ∧ (∃ body, (metadata lib settings req).result =
        .responseCT body "text/xml; charset=utf8")
    ∧ ((load_conf lib settings).1.valid_for = none →
        (metadata lib settings req).result =
          .responseCT
            (lib.entities_desc [lib.entity_desc (load_conf lib settings).1 24] 24
              (settings.SAML_METADATA_NAME.getD "")
              (settings.SAML_METADATA_ID.getD "")
              (settings.SAML_METADATA_SIGN.getD false)
              (lib.security_ctx (load_conf lib settings).1.xmlsec_binary
                (load_conf lib settings).1.key_file))
            "text/xml; charset=utf8") := by
  refine ⟨rfl, rfl, rfl, ⟨_, rfl⟩, ?_⟩
  intro h
  simp [metadata, h]

/-- Witness for the hypothesis of `metadata_pure_of_config` at the
sample configuration, whose `valid_for` is absent. -/
theorem metadata_pure_of_config_witness :
    (metadata libA settingsA reqGet).result =
      .responseCT
        (libA.entities_desc [libA.entity_desc (load_conf libA settingsA).1 24] 24
          (settingsA.SAML_METADATA_NAME.getD "")
          (settingsA.SAML_METADATA_ID.getD "")
          (settingsA.SAML_METADATA_SIGN.getD false)
          (libA.security_ctx (load_conf libA settingsA).1.xmlsec_binary
            (load_conf libA settingsA).1.key_file))
        "text/xml; charset=utf8" :=
  (metadata_pure_of_config libA settingsA reqGet reqGet).2.2.2.2 rfl

/-- Claim C5: `logout_service` reads `request.session['SAML_SUBJECT_ID']`
before dispatching on the query parameters, so for every request whose
session lacks that key — whatever the GET parameters — the handler
raises KeyError and produces none of the documented outcomes. -/
theorem logout_service_keyerror_without_subject (lib : Saml2Lib)
    (settings : Settings) (req : HttpRequest) :
    req.session.samlSubjectId = none →
    (logout_service lib settings req).result = .exn (.keyError "SAML_SUBJECT_ID")
    ∧ (logout_service lib settings req).session = req.session
    ∧ (logout_service lib settings req).effects = [.stateOpen] := by
  intro h
  simp only [logout_service, h]
  exact ⟨trivial, trivial, trivial⟩

/-- Witness for `logout_service_keyerror_without_subject`: even with a
`SAMLRequest` parameter present, a session without the subject id makes
the handler raise KeyError. -/
theorem logout_service_keyerror_without_subject_witness :
    (logout_service libA settingsA reqLSReqNoSubj).result =
      .exn (.keyError "SAML_SUBJECT_ID")
    ∧ (logout_service libA settingsA reqLSReqNoSubj).session =
        reqLSReqNoSubj.session
    ∧ (logout_service libA settingsA reqLSReqNoSubj).effects = [.stateOpen] :=
  logout_service_keyerror_without_subject libA settingsA reqLSReqNoSubj rfl

/-- Counterexample to claim C4 as stated: a logout-service GET with
neither protocol parameter, from a session lacking the SAML subject id,
does not return the not-found error — it raises KeyError. -/
theorem logout_service_noparams_counterexample :
    (logout_service libA settingsA reqLSNone).result =
      .exn (.keyError "SAML_SUBJECT_ID")
    ∧ (logout_service libA settingsA reqLSNone).result ≠
        .http404 "No SAMLResponse or SAMLRequest parameter found" := by
  exact ⟨rfl, by decide⟩

/-- Claim C4 (amended: provided the session holds the SAML subject id):
a GET to the logout-service endpoint in which neither `SAMLResponse`
nor `SAMLRequest` is present returns the not-found error. -/
theorem logout_service_noparams_http404 (lib : Saml2Lib)
    (settings : Settings) (req : HttpRequest) (sid : String) :
    req.session.samlSubjectId = some sid →
    req.getParams.lookup "SAMLResponse" = none →
    req.getParams.lookup "SAMLRequest" = none →
    (logout_service lib settings req).result =
      .http404 "No SAMLResponse or SAMLRequest parameter found"
    ∧ (logout_service lib settings req).session = req.session := by
  intro h1 h2 h3
  simp only [logout_service, h1, h2, h3]
  exact ⟨trivial, trivial⟩

/-- Witness for `logout_service_noparams_http404` at a concrete
authenticated session with no protocol parameter. -/
theorem logout_service_noparams_http404_witness :
    (logout_service libA settingsA reqLS404).result =
      .http404 "No SAMLResponse or SAMLRequest parameter found"
    ∧ (logout_service libA settingsA reqLS404).session = reqLS404.session :=
  logout_service_noparams_http404 libA settingsA reqLS404 "subj-1" rfl rfl rfl

/-- Claim C10: a GET to the login endpoint with no `idp` parameter,
under a configuration for which WAYF is needed, returns the IdP
discovery page, builds no AuthnRequest, and leaves the session — hence
the Outstanding Query cache — unchanged. -/
theorem login_wayf_discovery (lib : Saml2Lib) (settings : Settings)
    (req : HttpRequest) :
    req.getParams.lookup "idp" = none →
    (load_conf lib settings).1.is_wayf_needed = true →
    (login lib settings req).result =
      .render "djangosaml2/wayf.html" (load_conf lib settings).1.available_idps
        ((req.getParams.lookup "next").getD "/")
    ∧ (login lib settings req).session = req.session
    ∧ (login lib settings req).effects = []
    ∧ Effect.authnRequestBuilt ∉ (login lib settings req).effects := by
  intro hidp hwayf
  simp only [login, hidp, hwayf, Option.isNone_none, Bool.true_and, if_true]
  exact ⟨trivial, trivial, trivial, by simp⟩

/-- Witness for `login_wayf_discovery` at the WAYF-needing sample
configuration. -/
theorem login_wayf_discovery_witness :
    (login libWayf settingsA reqGet).result =
      .render "djangosaml2/wayf.html"
        (load_conf libWayf settingsA).1.available_idps
        ((reqGet.getParams.lookup "next").getD "/")
    ∧ (login libWayf settingsA reqGet).session = reqGet.session
    ∧ (login libWayf settingsA reqGet).effects = []
    ∧ Effect.authnRequestBuilt ∉ (login libWayf settingsA reqGet).effects :=
  login_wayf_discovery libWayf settingsA reqGet rfl rfl

/-- Claim C1: the assertion-consumer endpoint creates a local
authenticated session only when library verification succeeds and the
authentication backend resolves a local user; failed verification gives
the generic errors body with no redirect and no session, and failed
user resolution gives the generic not-valid body with no session. -/
theorem acs_session_only_if_verified_and_resolved (lib : Saml2Lib)
    (settings : Settings) (req : HttpRequest) :
    (∀ blob,
       req.postParams.lookup "SAMLResponse" = some blob →
       lib.client_response (load_conf lib settings).1 blob
         (load_conf lib settings).1.entityid req.session.oq = none →
       (assertion_consumer_service lib settings req).result =
         .response "SAML response has errors. Please check the logs"
       ∧ Effect.authLogin ∉ (assertion_consumer_service lib settings req).effects
       ∧ (assertion_consumer_service lib settings req).session.authUser =
           req.session.authUser)
    ∧ (∀ blob resp,
       req.postParams.lookup "SAMLResponse" = some blob →
       lib.client_response (load_conf lib settings).1 blob
         (load_conf lib settings).1.entityid req.session.oq = some resp →
       lib.auth_backend resp.resp_session_info = none →
       (assertion_consumer_service lib settings req).result =
         .response "user not valid"
       ∧ Effect.authLogin ∉ (assertion_consumer_service lib settings req).effects
       ∧ (assertion_consumer_service lib settings req).session.authUser =
           req.session.authUser)
    ∧ (Effect.authLogin ∈ (assertion_consumer_service lib settings req).effects →
       ∃ blob resp user,
         req.postParams.lookup "SAMLResponse" = some blob
         ∧ lib.client_response (load_conf lib settings).1 blob
             (load_conf lib settings).1.entityid req.session.oq = some resp
         ∧ lib.auth_backend resp.resp_session_info = some user) := by
  refine ⟨?_, ?_, ?_⟩
  · intro blob h1 h2
    simp [assertion_consumer_service, h1, h2]
  · intro blob resp h1 h2 h3
    simp [assertion_consumer_service, h1, h2, h3]
  · intro hmem
    cases hcase : req.postParams.lookup "SAMLResponse" with
    | none =>
      simp [assertion_consumer_service, hcase] at hmem
    | some blob =>
      cases hresp : lib.client_response (load_conf lib settings).1 blob
          (load_conf lib settings).1.entityid req.session.oq with
      | none =>
        simp [assertion_consumer_service, hcase, hresp] at hmem
      | some resp =>
        cases hauth : lib.auth_backend resp.resp_session_info with
        | none =>
          simp [assertion_consumer_service, hcase, hresp, hauth] at hmem
        | some user =>
          exact ⟨blob, resp, user, rfl, hresp, hauth⟩

/-- Witness for `acs_session_only_if_verified_and_resolved`: under the
sample oracle, whose verification fails, the concrete POST gets the
generic errors body and no login. -/
theorem acs_session_only_if_verified_and_resolved_witness :
    (assertion_consumer_service libA settingsA reqAcs).result =
      .response "SAML response has errors. Please check the logs"
    ∧ Effect.authLogin ∉ (assertion_consumer_service libA settingsA reqAcs).effects
    ∧ (assertion_consumer_service libA settingsA reqAcs).session.authUser =
        reqAcs.session.authUser :=
  (acs_session_only_if_verified_and_resolved libA settingsA reqAcs).1
    "BLOB" (by decide) rfl

/-- Claim C2: a GET to the login endpoint with no `idp` parameter under
a configuration not needing WAYF builds a redirect-binding
AuthnRequest, records exactly one new Outstanding Query entry mapping
the fresh request identifier to the `next` destination (default `/`),
and redirects to the Location the library produced. -/
theorem login_no_idp_no_wayf (lib : Saml2Lib) (settings : Settings)
    (req : HttpRequest) (sid location : String) :
    req.getParams.lookup "idp" = none →
    (load_conf lib settings).1.is_wayf_needed = false →
    lib.client_authenticate (load_conf lib settings).1 none
      ((req.getParams.lookup "next").getD "/") = (sid, ["Location", location]) →
    req.session.oq.lookup sid = none →
    (login lib settings req).result = .redirect location
    ∧ (login lib settings req).session.oq =
        (sid, (req.getParams.lookup "next").getD "/") :: req.session.oq
    ∧ (login lib settings req).session.authUser = req.session.authUser
    ∧ (login lib settings req).effects = [.authnRequestBuilt] := by
  intro hidp hwayf hauth hfresh
  simp [login, hidp, hwayf, hauth, oqRecord, hfresh]

/-- Witness for `login_no_idp_no_wayf`: the sample oracle issues
request id `id-17` with a Location, and the empty GET request records
`(id-17, /)`. -/
theorem login_no_idp_no_wayf_witness :
    (login libA settingsA reqGet).result =
      .redirect "https://idp.example/sso?req=1"
    ∧ (login libA settingsA reqGet).session.oq =
        ("id-17", (reqGet.getParams.lookup "next").getD "/") :: reqGet.session.oq
    ∧ (login libA settingsA reqGet).session.authUser = reqGet.session.authUser
    ∧ (login libA settingsA reqGet).effects = [.authnRequestBuilt] :=
  login_no_idp_no_wayf libA settingsA reqGet "id-17"
    "https://idp.example/sso?req=1" rfl rfl rfl rfl

/-- Counterexample to claim C3 as stated: a logout-service GET with
exactly one protocol parameter (`SAMLRequest`), for which the library
would report success with redirect target `https://idp.example/done`,
but whose session lacks the SAML subject id: the handler raises
KeyError before dispatching — no session teardown, no redirect, no
generic error body. -/
theorem logout_service_dispatch_counterexample :
    (logout_service libA settingsA reqLSReqNoSubj).result =
      .exn (.keyError "SAML_SUBJECT_ID")
    ∧ (logout_service libA settingsA reqLSReqNoSubj).result ≠
        .redirect "https://idp.example/done"
    ∧ Effect.authLogout ∉ (logout_service libA settingsA reqLSReqNoSubj).effects := by
  refine ⟨rfl, by decide, by decide⟩

/-- Claim C3 (amended: provided the session holds the SAML subject id —
otherwise the handler raises KeyError before dispatching — and the
library supplies the redirect target it promises): with `SAMLResponse`
present the local session is torn down iff validation returns success
status, otherwise the generic logout error body is returned; with
`SAMLRequest` present, success gives teardown plus redirect to the
library target, failure with a non-None response gives the redirect
without teardown, and a None response gives the generic error body. -/
theorem logout_service_dispatch (lib : Saml2Lib) (settings : Settings)
    (req : HttpRequest) (sid : String) :
    req.session.samlSubjectId = some sid →
    (∀ blob pair,
       req.getParams.lookup "SAMLResponse" = some blob →
       lib.client_logout_response (load_conf lib settings).1 blob = some pair →
       (pair.2 = "200 Ok" →
          (logout_service lib settings req).result = .djangoLogout
          ∧ Effect.authLogout ∈ (logout_service lib settings req).effects)
       ∧ (pair.2 ≠ "200 Ok" →
          (logout_service lib settings req).result =
            .response "Error during logout"
          ∧ Effect.authLogout ∉ (logout_service lib settings req).effects))
    ∧ (∀ blob,
       req.getParams.lookup "SAMLResponse" = some blob →
       lib.client_logout_response (load_conf lib settings).1 blob = none →
       (logout_service lib settings req).result = .response "Error during logout"
       ∧ Effect.authLogout ∉ (logout_service lib settings req).effects)
    ∧ (req.getParams.lookup "SAMLResponse" = none →
       ∀ blob, req.getParams.lookup "SAMLRequest" = some blob →
       (∀ url rest,
          lib.client_logout_request (load_conf lib settings).1 req.getParams sid
            = (some (("Location", url) :: rest), true) →
          (logout_service lib settings req).result = .redirect url
          ∧ Effect.authLogout ∈ (logout_service lib settings req).effects)
       ∧ (∀ url rest,
          lib.client_logout_request (load_conf lib settings).1 req.getParams sid
            = (some (("Location", url) :: rest), false) →
          (logout_service lib settings req).result = .redirect url
          ∧ Effect.authLogout ∉ (logout_service lib settings req).effects)
       ∧ (lib.client_logout_request (load_conf lib settings).1 req.getParams sid
            = (none, false) →
          (logout_service lib settings req).result =
            .response "Error during logout"
          ∧ Effect.authLogout ∉ (logout_service lib settings req).effects)) := by
  intro hsid
  refine ⟨?_, ?_, ?_⟩
  · intro blob pair h1 h2
    constructor
    · intro hok
      simp [logout_service, hsid, h1, h2, hok]
    · intro hko
      simp [logout_service, hsid, h1, h2, hko]
  · intro blob h1 h2
    simp [logout_service, hsid, h1, h2]
  · intro hnoresp blob hreq
    refine ⟨?_, ?_, ?_⟩
    · intro url rest hlr
      simp [logout_service, hsid, hnoresp, hreq, hlr]
    · intro url rest hlr
      simp [logout_service, hsid, hnoresp, hreq, hlr]
    · intro hlr
      simp [logout_service, hsid, hnoresp, hreq, hlr]

/-- Witness for `logout_service_dispatch`: the sample oracle reports a
successful IdP-initiated logout with target `https://idp.example/done`,
and the handler tears the session down and redirects there. -/
theorem logout_service_dispatch_witness :
    (logout_service libA settingsA reqLSReq).result =
      .redirect "https://idp.example/done"
    ∧ Effect.authLogout ∈ (logout_service libA settingsA reqLSReq).effects :=
  ((logout_service_dispatch libA settingsA reqLSReq "subj-1" rfl).2.2
    (by decide) "xyz" (by decide)).1 "https://idp.example/done" [] rfl

/-- Counterexample to claim C6 as stated: an authenticated session
without an Identity Record makes the logout-initiate handler raise an
uncaught KeyError — not the NotAuthenticated outcome (the redirect to
the login page the `login_required` collaborator produces). -/
theorem logout_no_identity_counterexample :
    (logout libA settingsA reqLogoutNoSubj).result =
      .exn (.keyError "SAML_SUBJECT_ID")
    ∧ (logout libA settingsA reqLogoutNoSubj).result ≠ .redirectToLogin := by
  refine ⟨rfl, by decide⟩

/-- Claim C6 (amended: the failure is an uncaught KeyError, a server
error, rather than the NotAuthenticated rejection): a request to the
logout-initiate endpoint whose session passes the outer authentication
precondition but has no stored SAML subject id fails before building a
LogoutRequest. -/
theorem logout_no_identity_keyerror (lib : Saml2Lib) (settings : Settings)
    (req : HttpRequest) :
    req.session.authUser.isSome = true →
    req.session.samlSubjectId = none →
    (logout lib settings req).result = .exn (.keyError "SAML_SUBJECT_ID")
    ∧ (logout lib settings req).result ≠ .redirectToLogin
    ∧ Effect.globalLogoutCall ∉ (logout lib settings req).effects := by
  intro h1 h2
  have h1n : req.session.authUser.isNone = false := by
    cases hu : req.session.authUser with
    | none => rw [hu] at h1; simp at h1
    | some u => rfl
  simp [logout, h1n, h2]

/-- Witness for `logout_no_identity_keyerror` at the concrete
authenticated session with no subject id. -/
theorem logout_no_identity_keyerror_witness :
    (logout libA settingsA reqLogoutNoSubj).result =
      .exn (.keyError "SAML_SUBJECT_ID")
    ∧ (logout libA settingsA reqLogoutNoSubj).result ≠ .redirectToLogin
    ∧ Effect.globalLogoutCall ∉ (logout libA settingsA reqLogoutNoSubj).effects :=
  logout_no_identity_keyerror libA settingsA reqLogoutNoSubj rfl rfl

/-- Counterexample to claim C7 as stated: a concrete logout-service run
that emits its HTTP response (a redirect) without ever flushing the
protocol state store, and neither that run nor a logout-initiate run
ever releases (closes) the store. -/
theorem state_store_counterexample :
    (logout_service libA settingsA reqLSReq).result =
      .redirect "https://idp.example/done"
    ∧ Effect.stateSync ∉ (logout_service libA settingsA reqLSReq).effects
    ∧ Effect.stateClose ∉ (logout_service libA settingsA reqLSReq).effects
    ∧ Effect.stateClose ∉ (logout libA settingsA reqLogoutAuth).effects := by
  refine ⟨rfl, by decide, by decide, by decide⟩

/-- Claim C7 (amended): the logout-initiate flow flushes the protocol
state store before responding exactly on the runs that pass the outer
authentication precondition and whose session holds a SAML subject id
(a run failing the precondition is redirected to the login page before
the store is even opened, and a run without the subject id raises
KeyError before the flush); the logout-service flow never flushes it;
and neither flow explicitly releases (closes) the store on any exit
path. -/
theorem state_store_flush_and_release (lib : Saml2Lib) (settings : Settings)
    (req : HttpRequest) :
    (Effect.stateSync ∈ (logout lib settings req).effects ↔
       req.session.authUser.isSome = true
       ∧ req.session.samlSubjectId.isSome = true)
    ∧ Effect.stateClose ∉ (logout lib settings req).effects
    ∧ Effect.stateSync ∉ (logout_service lib settings req).effects
    ∧ Effect.stateClose ∉ (logout_service lib settings req).effects := by
  refine ⟨⟨?_, ?_⟩, ?_, ?_, ?_⟩
  · intro hmem
    cases hu : req.session.authUser with
    | none => simp [logout, hu] at hmem
    | some u =>
      cases hs : req.session.samlSubjectId with
      | none => simp [logout, hu, hs] at hmem
      | some sid => simp [hu, hs]
  · rintro ⟨h1, h2⟩
    cases hu : req.session.authUser with
    | none => rw [hu] at h1; simp at h1
    | some u =>
      cases hs : req.session.samlSubjectId with
      | none => rw [hs] at h2; simp at h2
      | some sid =>
        simp only [logout, hu, hs]
        repeat' split
        all_goals simp_all
  all_goals simp only [logout, logout_service]
  all_goals repeat' split
  all_goals simp_all

/-- Witness for `state_store_flush_and_release`: the concrete
logout-initiate run from an authenticated session holding a subject id
does flush before redirecting. -/
theorem state_store_flush_and_release_witness :
    Effect.stateSync ∈ (logout libA settingsA reqLogoutAuth).effects :=
  (state_store_flush_and_release libA settingsA reqLogoutAuth).1.mpr ⟨rfl, rfl⟩

end Djangosaml2
